import Mathlib

/-!
Verification development for the DreamCraft photo-editing client.

The embedding below translates the state-bearing core of the application
(`src/App.tsx`, `src/services/geminiService.ts`, `src/components/FramePanel.tsx`)
into Lean: the edit-history store, the hotspot lists, the composite and batch
orchestration, the data-URL codec helpers, the gateway response classifier and
the frame-pinning logic.  Remote calls are modelled as oracles passed in with
each event; DOM-derived quantities (click offsets, natural sizes, canvas
renders) are event inputs.
-/

namespace DreamCraft

/-- Binary image asset: models a JS `File` (name, MIME type, byte payload). -/
structure ImageFile where
  name : String
  mime : String
  bytes : List Nat
deriving DecidableEq, Repr

/-- A pixel coordinate pair, used for both display and natural-resolution
hotspots (`{ x: number, y: number }` in `App.tsx`). -/
structure Hotspot where
  x : Int
  y : Int
deriving DecidableEq, Repr

/-- The three fields of a frame instruction
(`{ style, topText, bottomText }` in `App.tsx` / `FramePanel.tsx`). -/
structure FrameStyle where
  style : String
  topText : String
  bottomText : String
deriving DecidableEq, Repr

/-- The `Tool` union type from `Toolbar.tsx`. -/
inductive Tool where
  | composite | retouch | replace | creative | adjust | crop | frame | batch
deriving DecidableEq, Repr

/-! ## Data-URL codec (`dataURLtoFile` in `App.tsx`, `fileToPart` in
`geminiService.ts`)

JS `dataurl.split(',')` splits on every comma; the regex `/:(.*?);/` lazily
captures the text between the first `:` that is followed by a `;` (with no
line terminator in between) and the nearest such `;`; `atob` implements the
WHATWG forgiving-base64 decode.  Each is translated below. -/

/-- JS `String.prototype.split(',')`: splits at every comma, never returns
an empty list. -/
def splitComma : List Char → List (List Char)
  | [] => [[]]
  | c :: cs =>
    if c = ',' then [] :: splitComma cs
    else
      match splitComma cs with
      | [] => [[c]]
      | seg :: segs => (c :: seg) :: segs

/-- Characters the `.` of a JS regex (without the `s` flag) refuses to match. -/
def jsLineTerminator (c : Char) : Bool :=
  c = '\n' || c = '\r' || c = '\u2028' || c = '\u2029'

/-- Helper for `mimeCapture`: the lazy `(.*?);` part of `/:(.*?);/`.  Returns
the characters up to the first `;`, failing if a line terminator intervenes
or no `;` follows. -/
def takeToSemi : List Char → Option (List Char)
  | [] => none
  | c :: cs =>
    if c = ';' then some []
    else if jsLineTerminator c then none
    else (takeToSemi cs).map (fun cap => c :: cap)

/-- JS `str.match(/:(.*?);/)`: the capture group of the leftmost match. -/
def mimeCapture : List Char → Option (List Char)
  | [] => none
  | c :: cs =>
    if c = ':' then
      match takeToSemi cs with
      | some cap => some cap
      | none => mimeCapture cs
    else mimeCapture cs

/-- ASCII whitespace stripped by the forgiving-base64 decode. -/
def jsAsciiWhitespace (c : Char) : Bool :=
  c = ' ' || c = '\t' || c = '\n' || c = '\x0c' || c = '\r'

/-- Value of a base64 alphabet character, `none` outside the alphabet. -/
def b64Val (c : Char) : Option Nat :=
  if 'A' ≤ c ∧ c ≤ 'Z' then some (c.toNat - 'A'.toNat)
  else if 'a' ≤ c ∧ c ≤ 'z' then some (c.toNat - 'a'.toNat + 26)
  else if '0' ≤ c ∧ c ≤ '9' then some (c.toNat - '0'.toNat + 52)
  else if c = '+' then some 62
  else if c = '/' then some 63
  else none

/-- Strip one or two trailing `=` padding characters (forgiving-base64 step
performed when the length is a multiple of four). -/
def dropTrailingEq (l : List Char) : List Char :=
  match l.reverse with
  | '=' :: '=' :: rest => rest.reverse
  | '=' :: rest => rest.reverse
  | _ => l

/-- Reassemble 6-bit groups into bytes; fails when the group count leaves a
remainder of one (forgiving-base64 length check). -/
def b64Quanta : List Nat → Option (List Nat)
  | [] => some []
  | [a, b] => some [a * 4 + b / 16]
  | [a, b, c] => some [a * 4 + b / 16, b % 16 * 16 + c / 4]
  | a :: b :: c :: d :: rest =>
    (b64Quanta rest).map
      (fun tail => (a * 4 + b / 16) :: (b % 16 * 16 + c / 4) :: (c % 4 * 64 + d) :: tail)
  | [_] => none

/-- JS `atob`: the WHATWG forgiving-base64 decode, returning the byte values
of the resulting binary string, or `none` where `atob` throws. -/
def atobChars (s : List Char) : Option (List Nat) :=
  let data := s.filter (fun c => !jsAsciiWhitespace c)
  let data := if data.length % 4 = 0 then dropTrailingEq data else data
  match data.mapM b64Val with
  | none => none
  | some vals => b64Quanta vals

/-- `dataURLtoFile` from `App.tsx` lines 22 to 36: split on commas, require at
least two segments, parse the MIME type from the first segment with
`/:(.*?);/` (the empty capture is falsy and also rejected), `atob`-decode the
second segment, and build the `File`.  Errors carry the thrown messages; the
`atob` failure surfaces as the DOMException name. -/
def dataURLtoFile (dataurl filename : String) : Except String ImageFile :=
  match splitComma dataurl.data with
  | a0 :: a1 :: _ =>
    match mimeCapture a0 with
    | none => .error "Could not parse MIME type from data URL"
    | some cap =>
      if cap = [] then .error "Could not parse MIME type from data URL"
      else
        match atobChars a1 with
        | none => .error "InvalidCharacterError"
        | some bytes => .ok { name := filename, mime := String.mk cap, bytes := bytes }
  | _ => .error "Invalid data URL"

/-- `fileToPart` from `geminiService.ts` lines 12 to 28, applied to the data
URL the `FileReader` produced: same parse as `dataURLtoFile` but the payload
segment is kept base64-encoded.  Returns `(mimeType, data)`. -/
def fileToPart (dataUrl : String) : Except String (String × String) :=
  match splitComma dataUrl.data with
  | a0 :: a1 :: _ =>
    match mimeCapture a0 with
    | none => .error "Could not parse MIME type from data URL"
    | some cap =>
      if cap = [] then .error "Could not parse MIME type from data URL"
      else .ok (String.mk cap, String.mk a1)
  | _ => .error "Invalid data URL"

/-- The character class JS `String.prototype.trim` strips: WhiteSpace and
LineTerminator code points. -/
def jsTrimWhite (c : Char) : Bool :=
  c = ' ' || c = '\t' || c = '\n' || c = '\r' || c = '\x0b' || c = '\x0c' ||
  c = '\xa0' || c = '\ufeff' || c = '\u2028' || c = '\u2029'

/-- JS `String.prototype.trim`: strip leading and trailing whitespace. -/
def jsTrim (s : String) : String :=
  String.mk (((s.data.dropWhile jsTrimWhite).reverse.dropWhile jsTrimWhite).reverse)

/-! ## Gateway response classification (`handleApiResponse` in
`geminiService.ts` lines 30 to 63)

The wire types mirror the fields the code reads from a
`GenerateContentResponse`; every optional field is an `Option`.  JS truthiness
matters twice: an empty-string `blockReason` or `finishReason` is falsy and
skips its branch, and an empty trimmed `text` is falsy in the diagnostic. -/

/-- An inline image payload (`inlineData` of a response part). -/
structure InlineData where
  mimeType : String
  data : String
deriving DecidableEq, Repr

/-- One content part of a candidate: an inline image and/or text. -/
structure RespPart where
  inlineData : Option InlineData
  text : Option String
deriving DecidableEq, Repr

/-- The `content` of a candidate. -/
structure RespContent where
  parts : Option (List RespPart)
deriving DecidableEq, Repr

/-- One candidate output of the remote model. -/
structure Candidate where
  content : Option RespContent
  finishReason : Option String
deriving DecidableEq, Repr

/-- The `promptFeedback` block of a response. -/
structure PromptFeedback where
  blockReason : Option String
  blockReasonMessage : Option String
deriving DecidableEq, Repr

/-- The slice of a `GenerateContentResponse` that `handleApiResponse` reads. -/
structure GenResponse where
  promptFeedback : Option PromptFeedback
  candidates : Option (List Candidate)
  text : Option String
deriving DecidableEq, Repr

/-- The error taxonomy of the gateway, one constructor per `throw` site of
`handleApiResponse`, carrying the data interpolated into each message. -/
inductive GatewayError where
  | blocked (reason message : String)
  | stopped (context reason : String)
  | noImage (context : String) (textFeedback : Option String)
deriving DecidableEq, Repr

/-- The truthy value of `response.promptFeedback?.blockReason`, paired with
`blockReasonMessage || ''`. -/
def blockReasonTruthy (r : GenResponse) : Option (String × String) :=
  match r.promptFeedback with
  | none => none
  | some pf =>
    match pf.blockReason with
    | none => none
    | some br => if br = "" then none else some (br, pf.blockReasonMessage.getD "")

/-- `response.candidates?.[0]?.content?.parts?.find(part => part.inlineData)`,
projected to the inline data found. -/
def firstInlinePart (r : GenResponse) : Option InlineData :=
  match r.candidates with
  | some (c :: _) =>
    match c.content with
    | some content =>
      match content.parts with
      | some parts =>
        match parts.find? (fun p => p.inlineData.isSome) with
        | some p => p.inlineData
        | none => none
      | none => none
    | none => none
  | _ => none

/-- `response.candidates?.[0]?.finishReason`. -/
def firstFinishReason (r : GenResponse) : Option String :=
  match r.candidates with
  | some (c :: _) => c.finishReason
  | _ => none

/-- The truthy value of `response.text?.trim()`. -/
def textFeedbackTruthy (r : GenResponse) : Option String :=
  match r.text with
  | none => none
  | some t => if jsTrim t = "" then none else some (jsTrim t)

/-- `handleApiResponse` from `geminiService.ts` lines 30 to 63: block reason
first, then the first candidate's first inline-image part, then a truthy
non-STOP finish reason, else the no-image error carrying any trimmed text. -/
def handleApiResponse (r : GenResponse) (context : String) : Except GatewayError String :=
  match blockReasonTruthy r with
  | some (br, msg) => .error (.blocked br msg)
  | none =>
    match firstInlinePart r with
    | some d => .ok ("data:" ++ d.mimeType ++ ";base64," ++ d.data)
    | none =>
      match firstFinishReason r with
      | some fr =>
        if fr ≠ "" ∧ fr ≠ "STOP" then .error (.stopped context fr)
        else .error (.noImage context (textFeedbackTruthy r))
      | none => .error (.noImage context (textFeedbackTruthy r))

/-! ## Application session state (`App.tsx`)

One record per `useState` hook that participates in the core logic.  The
crop-selection hooks are reduced to presence flags (their geometry only feeds
the canvas render, which is an event input here), and theme, comparison and
object-URL state are display-only and omitted. -/

/-- The session state of the `App` component. -/
structure AppState where
  history : List ImageFile
  historyIndex : Int
  prompt : String
  secondaryPrompt : String
  isLoading : Bool
  error : Option String
  editHotspots : List Hotspot
  displayHotspots : List Hotspot
  activeTool : Tool
  cropActive : Bool
  completedCrop : Bool
  compositeFiles : List ImageFile
  styleSourceIndex : Nat
  batchFiles : List ImageFile
  pinnedFrameStyle : Option FrameStyle
  selectedIndices : List Nat
deriving DecidableEq, Repr

/-- The initial values of the `useState` hooks. -/
def initState : AppState :=
  { history := [], historyIndex := -1, prompt := "", secondaryPrompt := "",
    isLoading := false, error := none, editHotspots := [], displayHotspots := [],
    activeTool := .retouch, cropActive := false, completedCrop := false,
    compositeFiles := [], styleSourceIndex := 0, batchFiles := [],
    pinnedFrameStyle := none, selectedIndices := [] }

/-- `history[historyIndex] ?? null`: the asset under the cursor, `none` when
the cursor is `-1` or out of range. -/
def currentImage (s : AppState) : Option ImageFile :=
  if s.historyIndex < 0 then none else s.history.get? s.historyIndex.toNat

/-- `canUndo`: `historyIndex > 0`. -/
def canUndo (s : AppState) : Bool :=
  0 < s.historyIndex

/-- `canRedo`: `historyIndex < history.length - 1`. -/
def canRedo (s : AppState) : Bool :=
  s.historyIndex < (s.history.length : Int) - 1

/-- JS `array.slice(0, e)`: a negative end counts from the end of the array. -/
def jsSlice0 {α : Type} (e : Int) (l : List α) : List α :=
  l.take (if e < 0 then ((l.length : Int) + e).toNat else e.toNat)

/-- `addImageToHistory` (`App.tsx` lines 170 to 177): truncate the history to
`historyIndex + 1` entries, append the new file, move the cursor to the new
last index and clear the crop selection. -/
def addImageToHistory (s : AppState) (img : ImageFile) : AppState :=
  let newHistory := jsSlice0 (s.historyIndex + 1) s.history ++ [img]
  { s with history := newHistory,
           historyIndex := (newHistory.length : Int) - 1,
           cropActive := false, completedCrop := false }

/-- Composition of the awaited remote call with `dataURLtoFile`: either
rejection is caught by the same `catch` block in every handler. -/
def decodeOutcome (outcome : Except String String) (filename : String) :
    Except String ImageFile :=
  match outcome with
  | .error e => .error e
  | .ok url => dataURLtoFile url filename

/-! ## Event handlers (`App.tsx`)

Each handler is translated as a function of the prior state plus its
environment inputs: the remote call is an `Except String String` outcome (or
an oracle function where the handler builds the argument itself), and
`Date.now()` is a `now : Nat` parameter interpolated into the produced file
name.  `setIsLoading(true)` followed by the `finally` reset nets to
`isLoading = false` at settlement, which is the state recorded here. -/

/-- `handleStartEditing` (`App.tsx` lines 179 to 192). -/
def handleStartEditing (s : AppState) (f : ImageFile) : AppState :=
  { s with error := none, history := [f], historyIndex := 0,
           compositeFiles := [], styleSourceIndex := 0, batchFiles := [],
           editHotspots := [], displayHotspots := [], activeTool := .retouch,
           cropActive := false, completedCrop := false, selectedIndices := [] }

/-- `handleCompositeFilesSelect` (`App.tsx` lines 194 to 202). -/
def handleCompositeFilesSelect (s : AppState) (files : List ImageFile) : AppState :=
  if files.length > 1 then
    { s with error := none, compositeFiles := files, styleSourceIndex := 0 }
  else
    { s with error := some "Please select at least two images for compositing." }

/-- `handleBatchFilesSelect` (`App.tsx` lines 204 to 213). -/
def handleBatchFilesSelect (s : AppState) (files : List ImageFile) : AppState :=
  if files.length > 0 then
    { s with error := none, batchFiles := files, history := [], historyIndex := -1 }
  else
    { s with error := some "Please select one or more images for batch processing." }

/-- `handleGenerate` (`App.tsx` lines 215 to 233): the retouch edit.  Guards:
an image must be current, the prompt non-blank, the hotspot list non-empty.
On success the result is appended and both hotspot lists and the prompt are
cleared. -/
def handleGenerate (s : AppState) (outcome : Except String String) (now : Nat) : AppState :=
  match currentImage s with
  | none => s
  | some _ =>
    if jsTrim s.prompt = "" then
      { s with error := some "Please enter a description for your edit." }
    else if s.editHotspots = [] then
      { s with error := some "Please click on the image to select an area to edit." }
    else
      match decodeOutcome outcome ("edited-" ++ toString now ++ ".png") with
      | .ok img =>
        { addImageToHistory s img with
            editHotspots := [], displayHotspots := [], prompt := "",
            error := none, isLoading := false }
      | .error e => { s with error := some e, isLoading := false }

/-- The reordering of `handleGenerateComposite` (`App.tsx` lines 240 to 242):
copy the working set, `splice` out the style-source element and `unshift` it
to the front.  `none` when the index is out of range (where the JS would
front an `undefined`). -/
def spliceToFront {α : Type} (l : List α) (i : Nat) : Option (List α) :=
  (l.get? i).map (fun f => f :: l.eraseIdx i)

/-- The argument list `handleGenerateComposite` sends to the gateway: the
working set with the style source moved first, behind the size guard of
`App.tsx` line 236. -/
def compositeCallArgs (s : AppState) : Option (List ImageFile) :=
  if s.compositeFiles.length < 2 then none
  else spliceToFront s.compositeFiles s.styleSourceIndex

/-- `handleGenerateComposite` (`App.tsx` lines 235 to 258): on success the
history is replaced by the single result with the cursor at 0 and the working
set cleared. -/
def handleGenerateComposite (s : AppState) (gen : List ImageFile → Except String String)
    (now : Nat) : AppState :=
  match compositeCallArgs s with
  | none => s
  | some args =>
    match decodeOutcome (gen args) ("composited-" ++ toString now ++ ".png") with
    | .ok img =>
      { s with history := [img], historyIndex := 0,
               compositeFiles := [], styleSourceIndex := 0,
               activeTool := .retouch, error := none, isLoading := false }
    | .error e => { s with error := some e, isLoading := false }

/-- `handleApplyCreativeStyle` (`App.tsx` lines 260 to 273). -/
def handleApplyCreativeStyle (s : AppState) (outcome : Except String String)
    (now : Nat) : AppState :=
  match currentImage s with
  | none => s
  | some _ =>
    match decodeOutcome outcome ("styled-" ++ toString now ++ ".png") with
    | .ok img => { addImageToHistory s img with error := none, isLoading := false }
    | .error e => { s with error := some e, isLoading := false }

/-- `handleApplyAdjustment` (`App.tsx` lines 275 to 288). -/
def handleApplyAdjustment (s : AppState) (outcome : Except String String)
    (now : Nat) : AppState :=
  match currentImage s with
  | none => s
  | some _ =>
    match decodeOutcome outcome ("adjusted-" ++ toString now ++ ".png") with
    | .ok img => { addImageToHistory s img with error := none, isLoading := false }
    | .error e => { s with error := some e, isLoading := false }

/-- `handleReplaceObject` (`App.tsx` lines 290 to 307): both prompts must be
non-blank; on success they are both cleared. -/
def handleReplaceObject (s : AppState) (outcome : Except String String)
    (now : Nat) : AppState :=
  match currentImage s with
  | none => s
  | some _ =>
    if jsTrim s.prompt = "" ∨ jsTrim s.secondaryPrompt = "" then
      { s with error := some "Please fill out both fields." }
    else
      match decodeOutcome outcome ("replaced-" ++ toString now ++ ".png") with
      | .ok img =>
        { addImageToHistory s img with
            prompt := "", secondaryPrompt := "", error := none, isLoading := false }
      | .error e => { s with error := some e, isLoading := false }

/-- `handleApplyFrame` (`App.tsx` lines 309 to 323): the style text must be
non-blank. -/
def handleApplyFrame (s : AppState) (form : FrameStyle)
    (outcome : Except String String) (now : Nat) : AppState :=
  match currentImage s with
  | none => s
  | some _ =>
    if jsTrim form.style = "" then
      { s with error := some "Please describe the frame style." }
    else
      match decodeOutcome outcome ("framed-" ++ toString now ++ ".png") with
      | .ok img => { addImageToHistory s img with error := none, isLoading := false }
      | .error e => { s with error := some e, isLoading := false }

/-- The sequential loop of `handleApplyFrameToBatch` (`App.tsx` lines 331 to
336): returns the collected results, the trace of files actually attempted,
and the first error.  A failing call ends the iteration (the `for` body
throws out of the loop) while keeping earlier results. -/
def batchRun (gen : ImageFile → Except String String) :
    List ImageFile → List ImageFile × List ImageFile × Option String
  | [] => ([], [], none)
  | f :: rest =>
    match decodeOutcome (gen f) ("framed-batch-" ++ f.name ++ ".png") with
    | .error e => ([], [f], some e)
    | .ok img =>
      match batchRun gen rest with
      | (results, attempted, err) => (img :: results, f :: attempted, err)

/-- `handleApplyFrameToBatch` (`App.tsx` lines 325 to 351): requires a pinned
style and a non-empty batch; on full success the history is replaced by all
results with the cursor on the last; on failure the error is surfaced and
any partial results still replace the history. -/
def handleApplyFrameToBatch (s : AppState)
    (gen : FrameStyle → ImageFile → Except String String) : AppState :=
  match s.pinnedFrameStyle with
  | none => s
  | some pinned =>
    if s.batchFiles = [] then s
    else
      match batchRun (gen pinned) s.batchFiles with
      | (results, _, none) =>
        { s with history := results, historyIndex := (results.length : Int) - 1,
                 batchFiles := [], activeTool := .retouch,
                 error := none, isLoading := false }
      | (results, _, some e) =>
        if results = [] then { s with error := some e, isLoading := false }
        else
          { s with error := some e, history := results,
                   historyIndex := (results.length : Int) - 1, isLoading := false }

/-- `handleApplyCrop` (`App.tsx` lines 353 to 367): the canvas render is the
`croppedUrl` input.  A `dataURLtoFile` throw escapes the handler (it has no
`catch`), leaving the state unchanged. -/
def handleApplyCrop (s : AppState) (croppedUrl : String) (now : Nat) : AppState :=
  if !s.completedCrop then { s with error := some "Please select an area to crop." }
  else
    match dataURLtoFile croppedUrl ("cropped-" ++ toString now ++ ".png") with
    | .ok img => addImageToHistory s img
    | .error _ => s

/-- `handleUndo` (`App.tsx` line 369). -/
def handleUndo (s : AppState) : AppState :=
  if canUndo s then
    { s with historyIndex := s.historyIndex - 1,
             editHotspots := [], displayHotspots := [] }
  else s

/-- `handleRedo` (`App.tsx` line 370). -/
def handleRedo (s : AppState) : AppState :=
  if canRedo s then
    { s with historyIndex := s.historyIndex + 1,
             editHotspots := [], displayHotspots := [] }
  else s

/-- `handleReset` (`App.tsx` line 371). -/
def handleReset (s : AppState) : AppState :=
  if s.history.length > 0 then
    { s with historyIndex := 0, error := none,
             editHotspots := [], displayHotspots := [], selectedIndices := [] }
  else s

/-- `handleUploadNew` (`App.tsx` line 372). -/
def handleUploadNew (s : AppState) : AppState :=
  { s with history := [], historyIndex := -1, error := none, prompt := "",
           editHotspots := [], displayHotspots := [],
           compositeFiles := [], styleSourceIndex := 0, batchFiles := [],
           activeTool := .retouch, selectedIndices := [] }

/-- The history-thumbnail click (`App.tsx` line 602): jump the cursor to the
clicked index and clear both hotspot lists.  Thumbnails exist only for
in-range indices, hence the guard. -/
def selectHistoryIndex (s : AppState) (i : Nat) : AppState :=
  if i < s.history.length then
    { s with historyIndex := (i : Int),
             editHotspots := [], displayHotspots := [] }
  else s

/-- `handleToggleSelection` (`App.tsx` lines 385 to 395): set-membership flip,
with JS `Set` insertion order kept as list order. -/
def handleToggleSelection (s : AppState) (i : Nat) : AppState :=
  if i ∈ s.selectedIndices then
    { s with selectedIndices := s.selectedIndices.erase i }
  else
    { s with selectedIndices := s.selectedIndices ++ [i] }

/-- `handleImageClick` (`App.tsx` lines 429 to 443): in the retouch tool,
append the on-screen point to `displayHotspots` and its scale-corrected
natural-resolution point to `editHotspots`.  The scale arithmetic happens on
DOM floats, so both points arrive as event inputs. -/
def handleImageClick (s : AppState) (display natural : Hotspot) : AppState :=
  if s.activeTool ≠ .retouch then s
  else
    { s with displayHotspots := s.displayHotspots ++ [display],
             editHotspots := s.editHotspots ++ [natural] }

/-- `handleUndoHotspot` (`App.tsx` lines 445 to 448): `slice(0, -1)` pops the
last point of both lists. -/
def handleUndoHotspot (s : AppState) : AppState :=
  { s with displayHotspots := s.displayHotspots.dropLast,
           editHotspots := s.editHotspots.dropLast }

/-- The pinned-state indicator of `FramePanel.tsx` lines 21 to 31: the form
counts as pinned exactly when all three fields are string-equal to the
pinned style. -/
def isCurrentStylePinned (pinned : Option FrameStyle) (form : FrameStyle) : Bool :=
  match pinned with
  | some p => p.style == form.style && p.topText == form.topText &&
              p.bottomText == form.bottomText
  | none => false

/-- `handlePin` of `FramePanel.tsx` lines 37 to 44: unpin when the form is the
pinned style, otherwise pin the form fields provided the style is non-blank,
else do nothing. -/
def framePanelPin (pinned : Option FrameStyle) (form : FrameStyle) : Option FrameStyle :=
  if isCurrentStylePinned pinned form then none
  else if jsTrim form.style = "" then pinned
  else some form

/-- The sanitization of `handleDownloadZip` (`App.tsx` line 408): the regex
`/[^a-z0-9_.\-]/gi` replaces every character outside `[A-Za-z0-9_.-]` by an
underscore. -/
def sanitizeChar (c : Char) : Char :=
  if ('a' ≤ c ∧ c ≤ 'z') ∨ ('A' ≤ c ∧ c ≤ 'Z') ∨ ('0' ≤ c ∧ c ≤ '9') ∨
     c = '_' ∨ c = '.' ∨ c = '-' then c
  else '_'

/-- Sanitize a whole file name character by character. -/
def sanitizeName (s : String) : String :=
  String.mk (s.data.map sanitizeChar)

/-- JS `String(index).padStart(3, '0')`. -/
def padStart3 (s : String) : String :=
  if s.length < 3 then String.mk (List.replicate (3 - s.length) '0') ++ s else s

/-- The archive-entry name of `App.tsx` line 409. -/
def zipEntryName (i : Nat) (f : ImageFile) : String :=
  padStart3 (Nat.repr i) ++ "_" ++ sanitizeName f.name

/-- The entries the zip is populated with (`App.tsx` lines 407 to 410), in
selection order. -/
def buildZipEntries (files : List ImageFile) : List (String × ImageFile) :=
  files.enum.map (fun p => (zipEntryName p.1 p.2, p.2))

/-- The archive construction of `handleDownloadZip` (`App.tsx` lines 397 to
426): an empty selection errors out before any zip is built; otherwise the
entry list is produced. -/
def handleDownloadZip (files : List ImageFile) :
    Except String (List (String × ImageFile)) :=
  if files.length = 0 then .error "No images selected to download."
  else .ok (buildZipEntries files)

/-- The state effect of `handleDownloadZip`: the empty-selection error, or a
cleared download selection after a successful export. -/
def handleDownloadZipState (s : AppState) (files : List ImageFile) : AppState :=
  match handleDownloadZip files with
  | .error e => { s with error := some e }
  | .ok _ => { s with error := none, selectedIndices := [], isLoading := false }

/-! ## The session step relation

One constructor per user-visible operation; oracle data (remote outcomes,
canvas renders, DOM-scaled points, clock readings) rides on the event. -/

/-- Events of the session state machine. -/
inductive Ev where
  | startEditing (f : ImageFile)
  | setTool (t : Tool)
  | setPrompt (p : String)
  | setSecondaryPrompt (p : String)
  | setCrop (b : Bool)
  | setCompletedCrop (b : Bool)
  | imageClick (display natural : Hotspot)
  | undoHotspot
  | generate (outcome : Except String String) (now : Nat)
  | applyCreativeStyle (outcome : Except String String) (now : Nat)
  | applyAdjustment (outcome : Except String String) (now : Nat)
  | replaceObject (outcome : Except String String) (now : Nat)
  | applyFrame (form : FrameStyle) (outcome : Except String String) (now : Nat)
  | applyCrop (croppedUrl : String) (now : Nat)
  | generateComposite (gen : List ImageFile → Except String String) (now : Nat)
  | applyFrameToBatch (gen : FrameStyle → ImageFile → Except String String)
  | undo
  | redo
  | reset
  | uploadNew
  | selectHistory (i : Nat)
  | compositeFilesSelect (files : List ImageFile)
  | batchFilesSelect (files : List ImageFile)
  | setStyleSourceIndex (i : Nat)
  | compositeStartOver
  | pinFrame (form : FrameStyle)
  | toggleSelection (i : Nat)
  | downloadZip (files : List ImageFile)

/-- The step function: dispatch an event to its handler. -/
def step (ev : Ev) (s : AppState) : AppState :=
  match ev with
  | .startEditing f => handleStartEditing s f
  | .setTool t => { s with activeTool := t }
  | .setPrompt p => { s with prompt := p }
  | .setSecondaryPrompt p => { s with secondaryPrompt := p }
  | .setCrop b => { s with cropActive := b }
  | .setCompletedCrop b => { s with completedCrop := b }
  | .imageClick d n => handleImageClick s d n
  | .undoHotspot => handleUndoHotspot s
  | .generate outcome now => handleGenerate s outcome now
  | .applyCreativeStyle outcome now => handleApplyCreativeStyle s outcome now
  | .applyAdjustment outcome now => handleApplyAdjustment s outcome now
  | .replaceObject outcome now => handleReplaceObject s outcome now
  | .applyFrame form outcome now => handleApplyFrame s form outcome now
  | .applyCrop url now => handleApplyCrop s url now
  | .generateComposite gen now => handleGenerateComposite s gen now
  | .applyFrameToBatch gen => handleApplyFrameToBatch s gen
  | .undo => handleUndo s
  | .redo => handleRedo s
  | .reset => handleReset s
  | .uploadNew => handleUploadNew s
  | .selectHistory i => selectHistoryIndex s i
  | .compositeFilesSelect files => handleCompositeFilesSelect s files
  | .batchFilesSelect files => handleBatchFilesSelect s files
  | .setStyleSourceIndex i =>
    if i < s.compositeFiles.length then { s with styleSourceIndex := i } else s
  | .compositeStartOver => { s with compositeFiles := [], styleSourceIndex := 0 }
  | .pinFrame form => { s with pinnedFrameStyle := framePanelPin s.pinnedFrameStyle form }
  | .toggleSelection i => handleToggleSelection s i
  | .downloadZip files => handleDownloadZipState s files

/-- States reachable from the initial hook values through the step relation. -/
inductive Reachable : AppState → Prop where
  | init : Reachable initState
  | next {s : AppState} (ev : Ev) : Reachable s → Reachable (step ev s)

/-! ## Observers stated in the specification's vocabulary

These restate the transport-encoding shape of the spec (a `<mime-type
descriptor>,<payload>` string) independently of `splitComma`, for use in the
codec theorems. -/

/-- The non-separator predicate of the transport-string shape. -/
def notComma (c : Char) : Bool :=
  c ≠ ','

/-- The segment of a transport string before its first comma. -/
def headerSegment (s : String) : List Char :=
  s.data.takeWhile notComma

/-- The payload segment the decoder reads: the characters after the first
comma, up to a second comma when one exists. -/
def payloadSegment (s : String) : List Char :=
  ((s.data.dropWhile notComma).tail).takeWhile notComma

/-! ## Concrete sample data for witnesses and counterexamples -/

/-- Sample asset a. -/
def imgA : ImageFile := { name := "a.png", mime := "image/png", bytes := [1] }

/-- Sample asset b. -/
def imgB : ImageFile := { name := "b.png", mime := "image/png", bytes := [2] }

/-- Sample asset c. -/
def imgC : ImageFile := { name := "c.png", mime := "image/png", bytes := [3] }

/-- Sample asset d. -/
def imgD : ImageFile := { name := "d.png", mime := "image/png", bytes := [4] }

/-- A session holding history `[a, b, c]` with the cursor on the last entry. -/
def sABC : AppState :=
  { initState with history := [imgA, imgB, imgC], historyIndex := 2 }

/-- A well-formed data URL decoding to the bytes `[65, 66, 67]`. -/
def okUrl : String := "data:image/png;base64,QUJD"

/-- A transport string with a comma and a parseable MIME descriptor whose
payload is not valid base64. -/
def badPayloadURL : String := "data:image/png;base64,!"

/-- The reachable session of the hotspot counterexample: upload, click the
image under the retouch tool, switch to the creative tool, apply a style
successfully. -/
def creativeAfterClickState : AppState :=
  step (.applyCreativeStyle (.ok okUrl) 5)
    (step (.setTool .creative)
      (step (.imageClick { x := 1, y := 2 } { x := 3, y := 4 })
        (step (.startEditing imgA) initState)))

/-- Batch sources for the partial-failure scenario. -/
def srcOne : ImageFile := { name := "s1", mime := "image/png", bytes := [] }

/-- Second batch source, the one whose remote call fails. -/
def srcTwo : ImageFile := { name := "s2", mime := "image/png", bytes := [] }

/-- Third batch source, never attempted. -/
def srcThree : ImageFile := { name := "s3", mime := "image/png", bytes := [] }

/-- A pinned frame style. -/
def goldFrame : FrameStyle := { style := "gold", topText := "top", bottomText := "bot" }

/-- A remote frame oracle that fails exactly on the second source. -/
def failOnTwo : FrameStyle → ImageFile → Except String String :=
  fun _ f => if f.name = "s2" then .error "boom" else .ok okUrl

/-- The decoded result of the first batch source. -/
def framedOne : ImageFile :=
  { name := "framed-batch-s1.png", mime := "image/png", bytes := [65, 66, 67] }

/-- The session before the batch run: three sources and a pinned style. -/
def sBatch : AppState :=
  { initState with batchFiles := [srcOne, srcTwo, srcThree],
                   pinnedFrameStyle := some goldFrame }

/-- A composite working set `[a, b, c]` with the style source at index 2. -/
def sComposite : AppState :=
  { initState with compositeFiles := [imgA, imgB, imgC], styleSourceIndex := 2 }

/-- A remote response carrying an inline image part alongside a non-STOP
finish reason. -/
def respImageWithSafety : GenResponse :=
  { promptFeedback := none,
    candidates := some
      [{ content := some
           { parts := some
               [{ inlineData := some { mimeType := "image/png", data := "QUJD" },
                  text := none }] },
         finishReason := some "SAFETY" }],
    text := none }

/-- A session mid-retouch: two history entries, one recorded hotspot and a
filled-in prompt, used to witness the hotspot-clearing theorem. -/
def sRetouch : AppState :=
  { initState with history := [imgA, imgB], historyIndex := 1,
                   editHotspots := [{ x := 3, y := 4 }],
                   displayHotspots := [{ x := 1, y := 2 }],
                   prompt := "remove the lamp" }

/-- A session whose cursor sits mid-history (history `[a, b, c]`, cursor 0)
with a recorded hotspot and a filled-in prompt: a successful retouch from
here truncates the redo branch, so the new history is shorter than the old
one plus one. -/
def sMidRetouch : AppState :=
  { initState with history := [imgA, imgB, imgC], historyIndex := 0,
                   editHotspots := [{ x := 3, y := 4 }],
                   displayHotspots := [{ x := 1, y := 2 }],
                   prompt := "remove the lamp" }

/-! ## Theorems -/

/-- C1: appending truncates the history to the entries up to and including
the cursor, appends the asset, and moves the cursor to the new last index;
concretely, from `[a, b, c]` at cursor 2, `undo; undo; append d` yields
`[a, d]` at cursor 1 and a subsequent redo is a no-op. -/
theorem append_truncates_at_cursor (s : AppState) (a : ImageFile)
    (h : -1 ≤ s.historyIndex) :
    ((addImageToHistory s a).history =
        s.history.take (s.historyIndex + 1).toNat ++ [a] ∧
      (addImageToHistory s a).historyIndex =
        ((addImageToHistory s a).history.length : Int) - 1) ∧
    (addImageToHistory (handleUndo (handleUndo sABC)) imgD).history = [imgA, imgD] ∧
    (addImageToHistory (handleUndo (handleUndo sABC)) imgD).historyIndex = 1 ∧
    handleRedo (addImageToHistory (handleUndo (handleUndo sABC)) imgD) =
      addImageToHistory (handleUndo (handleUndo sABC)) imgD := by
  refine ⟨⟨?_, rfl⟩, by decide, by decide, by decide⟩
  have hne : ¬ s.historyIndex + 1 < 0 := by omega
  simp [addImageToHistory, jsSlice0, hne]

/-- Witness for `append_truncates_at_cursor` at the concrete `[a, b, c]`
session. -/
theorem append_truncates_at_cursor_witness :
    (addImageToHistory sABC imgD).history =
      sABC.history.take (sABC.historyIndex + 1).toNat ++ [imgD] :=
  (append_truncates_at_cursor sABC imgD (by decide)).1.1

/-- C2: the gateway classifies a response in priority order: a truthy block
reason fails as blocked; failing that, a first-candidate inline-image part
succeeds regardless of the finish reason; failing that, a truthy non-STOP
finish reason fails as stopped; otherwise the no-image error carries the
trimmed model text when present. -/
theorem gateway_response_classification (r : GenResponse) (ctx : String) :
    (∀ br msg, blockReasonTruthy r = some (br, msg) →
      handleApiResponse r ctx = .error (.blocked br msg)) ∧
    (blockReasonTruthy r = none → ∀ d, firstInlinePart r = some d →
      handleApiResponse r ctx = .ok ("data:" ++ d.mimeType ++ ";base64," ++ d.data)) ∧
    (blockReasonTruthy r = none → firstInlinePart r = none →
      ∀ fr, firstFinishReason r = some fr → fr ≠ "" → fr ≠ "STOP" →
      handleApiResponse r ctx = .error (.stopped ctx fr)) ∧
    (blockReasonTruthy r = none → firstInlinePart r = none →
      (∀ fr, firstFinishReason r = some fr → fr = "STOP" ∨ fr = "") →
      handleApiResponse r ctx = .error (.noImage ctx (textFeedbackTruthy r))) := by
  refine ⟨?_, ?_, ?_, ?_⟩
  · intro br msg hb
    simp [handleApiResponse, hb]
  · intro hb d hd
    simp [handleApiResponse, hb, hd]
  · intro hb hi fr hf hne hns
    simp [handleApiResponse, hb, hi, hf, hne, hns]
  · intro hb hi hall
    cases hfr : firstFinishReason r with
    | none => simp [handleApiResponse, hb, hi, hfr]
    | some fr =>
      rcases hall fr hfr with hstop | hempty
      · subst hstop; simp [handleApiResponse, hb, hi, hfr]
      · subst hempty; simp [handleApiResponse, hb, hi, hfr]

/-- Witness for `gateway_response_classification`: a response whose first
candidate carries an image part alongside a `SAFETY` finish reason still
succeeds with the decoded data URL. -/
theorem gateway_response_classification_witness :
    handleApiResponse respImageWithSafety "edit" = .ok "data:image/png;base64,QUJD" :=
  (gateway_response_classification respImageWithSafety "edit").2.1 rfl
    { mimeType := "image/png", data := "QUJD" } rfl

/-- C3: for each non-batch edit operation (localized edit, filter,
adjustment, frame, composite), a failing remote call leaves the history
sequence and the cursor exactly as they were. -/
theorem failed_remote_leaves_history (s : AppState) (e : String)
    (form : FrameStyle) (now : Nat) :
    ((step (.generate (.error e) now) s).history = s.history ∧
      (step (.generate (.error e) now) s).historyIndex = s.historyIndex) ∧
    ((step (.applyCreativeStyle (.error e) now) s).history = s.history ∧
      (step (.applyCreativeStyle (.error e) now) s).historyIndex = s.historyIndex) ∧
    ((step (.applyAdjustment (.error e) now) s).history = s.history ∧
      (step (.applyAdjustment (.error e) now) s).historyIndex = s.historyIndex) ∧
    ((step (.applyFrame form (.error e) now) s).history = s.history ∧
      (step (.applyFrame form (.error e) now) s).historyIndex = s.historyIndex) ∧
    ((step (.generateComposite (fun _ => .error e) now) s).history = s.history ∧
      (step (.generateComposite (fun _ => .error e) now) s).historyIndex =
        s.historyIndex) := by
  refine ⟨?_, ?_, ?_, ?_, ?_⟩
  · cases hc : currentImage s with
    | none => simp [step, handleGenerate, hc]
    | some i =>
      by_cases h1 : jsTrim s.prompt = ""
      · simp [step, handleGenerate, hc, h1]
      · by_cases h2 : s.editHotspots = []
        · simp [step, handleGenerate, hc, h1, h2]
        · simp [step, handleGenerate, hc, h1, h2, decodeOutcome]
  · cases hc : currentImage s with
    | none => simp [step, handleApplyCreativeStyle, hc]
    | some i => simp [step, handleApplyCreativeStyle, hc, decodeOutcome]
  · cases hc : currentImage s with
    | none => simp [step, handleApplyAdjustment, hc]
    | some i => simp [step, handleApplyAdjustment, hc, decodeOutcome]
  · cases hc : currentImage s with
    | none => simp [step, handleApplyFrame, hc]
    | some i =>
      by_cases h1 : jsTrim form.style = ""
      · simp [step, handleApplyFrame, hc, h1]
      · simp [step, handleApplyFrame, hc, h1, decodeOutcome]
  · cases ha : compositeCallArgs s with
    | none => simp [step, handleGenerateComposite, ha]
    | some args => simp [step, handleGenerateComposite, ha, decodeOutcome]

/-- C5: the composite call reorders the working set so the style source comes
first, the rest keeping their relative order; concretely `[a, b, c]` with
style source 2 is sent as `[c, a, b]`. -/
theorem composite_sends_style_source_first (l : List ImageFile) (i : Nat)
    (s : AppState) (h : i < l.length) (h2 : 2 ≤ l.length)
    (hf : s.compositeFiles = l) (hi : s.styleSourceIndex = i) :
    compositeCallArgs s = some (l.get ⟨i, h⟩ :: l.eraseIdx i) ∧
    compositeCallArgs sComposite = some [imgC, imgA, imgB] := by
  constructor
  · have hlt : ¬ l.length < 2 := by omega
    simp [compositeCallArgs, hf, hi, hlt, spliceToFront, List.get?_eq_get h]
  · decide

/-- Witness for `composite_sends_style_source_first` at the concrete working
set `[a, b, c]` with style source 2. -/
theorem composite_sends_style_source_first_witness :
    compositeCallArgs sComposite = some [imgC, imgA, imgB] :=
  (composite_sends_style_source_first [imgA, imgB, imgC] 2 sComposite
    (by decide) (by decide) rfl rfl).2

/-- C9: the frame tool shows the style as pinned, and the pin button unpins,
exactly when all three form fields are string-equal to the pinned style's
fields; on any difference the button pins the current fields when the style
text is non-blank and does nothing otherwise. -/
theorem pin_toggle_exact_equality (p form : FrameStyle) :
    (isCurrentStylePinned (some p) form = true ↔
      form.style = p.style ∧ form.topText = p.topText ∧
        form.bottomText = p.bottomText) ∧
    (isCurrentStylePinned (some p) form = true →
      framePanelPin (some p) form = none) ∧
    (isCurrentStylePinned (some p) form = false → jsTrim form.style ≠ "" →
      framePanelPin (some p) form = some form) ∧
    (isCurrentStylePinned (some p) form = false → jsTrim form.style = "" →
      framePanelPin (some p) form = some p) := by
  refine ⟨?_, ?_, ?_, ?_⟩
  · constructor
    · intro hb
      simp only [isCurrentStylePinned, Bool.and_eq_true, beq_iff_eq] at hb
      exact ⟨hb.1.1.symm, hb.1.2.symm, hb.2.symm⟩
    · intro hf
      simp [isCurrentStylePinned, hf.1, hf.2.1, hf.2.2]
  · intro hp
    simp [framePanelPin, hp]
  · intro hp hs
    simp [framePanelPin, hp, hs]
  · intro hp hs
    simp [framePanelPin, hp, hs]

/-- Witness for `pin_toggle_exact_equality`: with the form equal to the
pinned style the button unpins. -/
theorem pin_toggle_exact_equality_witness :
    framePanelPin (some goldFrame) goldFrame = none :=
  (pin_toggle_exact_equality goldFrame goldFrame).2.1 (by decide)

/-- C4: when the remote frame call fails on the second of three batch
sources, the loop collects exactly the first result, never attempts the
third source, surfaces the error, and still installs the partial result into
history with the cursor on its last index. -/
theorem batch_stops_after_failure (s : AppState) (f1 f2 f3 r1 : ImageFile)
    (fr : FrameStyle) (gen : FrameStyle → ImageFile → Except String String)
    (u1 e : String)
    (hpin : s.pinnedFrameStyle = some fr)
    (hbatch : s.batchFiles = [f1, f2, f3])
    (h1 : gen fr f1 = .ok u1)
    (h1d : dataURLtoFile u1 ("framed-batch-" ++ f1.name ++ ".png") = .ok r1)
    (h2 : gen fr f2 = .error e) :
    batchRun (gen fr) [f1, f2, f3] = ([r1], [f1, f2], some e) ∧
    (step (.applyFrameToBatch gen) s).history = [r1] ∧
    (step (.applyFrameToBatch gen) s).historyIndex = 0 ∧
    (step (.applyFrameToBatch gen) s).error = some e := by
  have hrun : batchRun (gen fr) [f1, f2, f3] = ([r1], [f1, f2], some e) := by
    simp [batchRun, decodeOutcome, h1, h1d, h2]
  refine ⟨hrun, ?_, ?_, ?_⟩ <;>
    simp [step, handleApplyFrameToBatch, hpin, hbatch, hrun]

/-- Witness for `batch_stops_after_failure` at the concrete three-source
batch whose second call fails. -/
theorem batch_stops_after_failure_witness :
    batchRun (failOnTwo goldFrame) [srcOne, srcTwo, srcThree] =
      ([framedOne], [srcOne, srcTwo], some "boom") :=
  (batch_stops_after_failure sBatch srcOne srcTwo srcThree framedOne goldFrame
    failOnTwo okUrl "boom" rfl rfl rfl rfl rfl).1

/-- Counterexample for C7: after a click recorded under the retouch tool, a
successful creative-style application (history grows, no error) leaves the
edit-hotspot list non-empty, so hotspots are not cleared by every successful
edit application. -/
theorem hotspots_survive_creative_style :
    creativeAfterClickState.history.length = 2 ∧
    creativeAfterClickState.error = none ∧
    creativeAfterClickState.editHotspots = [{ x := 3, y := 4 }] := by decide

/-- C7 as amended: both hotspot lists are empty after every successful
localized-edit (retouch) application — success meaning the handler's guards
pass (an image is current, the prompt is non-blank, at least one hotspot is
recorded) and the remote outcome decodes — and after every undo or redo that
actually moves the cursor; every other edit kind (filter, adjustment,
replace, frame, crop, composite, batch) leaves both hotspot lists
unchanged. -/
theorem hotspots_cleared_on_retouch_and_navigation (s : AppState)
    (outcome : Except String String) (now : Nat) (form : FrameStyle)
    (url : String) (gen : List ImageFile → Except String String)
    (genB : FrameStyle → ImageFile → Except String String) :
    (∀ i img, currentImage s = some i → jsTrim s.prompt ≠ "" →
      s.editHotspots ≠ [] →
      decodeOutcome outcome ("edited-" ++ toString now ++ ".png") = .ok img →
      (step (.generate outcome now) s).editHotspots = [] ∧
      (step (.generate outcome now) s).displayHotspots = []) ∧
    (canUndo s = true → (handleUndo s).editHotspots = [] ∧
      (handleUndo s).displayHotspots = []) ∧
    (canRedo s = true → (handleRedo s).editHotspots = [] ∧
      (handleRedo s).displayHotspots = []) ∧
    ((step (.applyCreativeStyle outcome now) s).editHotspots = s.editHotspots ∧
      (step (.applyCreativeStyle outcome now) s).displayHotspots = s.displayHotspots) ∧
    ((step (.applyAdjustment outcome now) s).editHotspots = s.editHotspots ∧
      (step (.applyAdjustment outcome now) s).displayHotspots = s.displayHotspots) ∧
    ((step (.replaceObject outcome now) s).editHotspots = s.editHotspots ∧
      (step (.replaceObject outcome now) s).displayHotspots = s.displayHotspots) ∧
    ((step (.applyFrame form outcome now) s).editHotspots = s.editHotspots ∧
      (step (.applyFrame form outcome now) s).displayHotspots = s.displayHotspots) ∧
    ((step (.applyCrop url now) s).editHotspots = s.editHotspots ∧
      (step (.applyCrop url now) s).displayHotspots = s.displayHotspots) ∧
    ((step (.generateComposite gen now) s).editHotspots = s.editHotspots ∧
      (step (.generateComposite gen now) s).displayHotspots = s.displayHotspots) ∧
    ((step (.applyFrameToBatch genB) s).editHotspots = s.editHotspots ∧
      (step (.applyFrameToBatch genB) s).displayHotspots = s.displayHotspots) := by
  refine ⟨?_, ?_, ?_, ?_, ?_, ?_, ?_, ?_, ?_, ?_⟩
  · intro i img hc h1 h2 hd
    simp [step, handleGenerate, hc, h1, h2, hd]
  · intro h; simp [handleUndo, h]
  · intro h; simp [handleRedo, h]
  · cases hc : currentImage s with
    | none => simp [step, handleApplyCreativeStyle, hc]
    | some i =>
      cases hd : decodeOutcome outcome ("styled-" ++ toString now ++ ".png") with
      | ok img => simp [step, handleApplyCreativeStyle, hc, hd, addImageToHistory]
      | error e => simp [step, handleApplyCreativeStyle, hc, hd]
  · cases hc : currentImage s with
    | none => simp [step, handleApplyAdjustment, hc]
    | some i =>
      cases hd : decodeOutcome outcome ("adjusted-" ++ toString now ++ ".png") with
      | ok img => simp [step, handleApplyAdjustment, hc, hd, addImageToHistory]
      | error e => simp [step, handleApplyAdjustment, hc, hd]
  · cases hc : currentImage s with
    | none => simp [step, handleReplaceObject, hc]
    | some i =>
      by_cases h1 : jsTrim s.prompt = "" ∨ jsTrim s.secondaryPrompt = ""
      · simp [step, handleReplaceObject, hc, h1]
      · cases hd : decodeOutcome outcome ("replaced-" ++ toString now ++ ".png") with
        | ok img => simp [step, handleReplaceObject, hc, h1, hd, addImageToHistory]
        | error e => simp [step, handleReplaceObject, hc, h1, hd]
  · cases hc : currentImage s with
    | none => simp [step, handleApplyFrame, hc]
    | some i =>
      by_cases h1 : jsTrim form.style = ""
      · simp [step, handleApplyFrame, hc, h1]
      · cases hd : decodeOutcome outcome ("framed-" ++ toString now ++ ".png") with
        | ok img => simp [step, handleApplyFrame, hc, h1, hd, addImageToHistory]
        | error e => simp [step, handleApplyFrame, hc, h1, hd]
  · by_cases h1 : s.completedCrop
    · cases hd : dataURLtoFile url ("cropped-" ++ toString now ++ ".png") with
      | ok img => simp [step, handleApplyCrop, h1, hd, addImageToHistory]
      | error e => simp [step, handleApplyCrop, h1, hd]
    · simp [step, handleApplyCrop, h1]
  · cases ha : compositeCallArgs s with
    | none => simp [step, handleGenerateComposite, ha]
    | some args =>
      cases hd : decodeOutcome (gen args) ("composited-" ++ toString now ++ ".png") with
      | ok img => simp [step, handleGenerateComposite, ha, hd]
      | error e => simp [step, handleGenerateComposite, ha, hd]
  · cases hp : s.pinnedFrameStyle with
    | none => simp [step, handleApplyFrameToBatch, hp]
    | some pinned =>
      by_cases hb : s.batchFiles = []
      · simp [step, handleApplyFrameToBatch, hp, hb]
      · rcases hr : batchRun (genB pinned) s.batchFiles with ⟨results, attempted, err⟩
        cases err with
        | none => simp [step, handleApplyFrameToBatch, hp, hb, hr]
        | some e =>
          by_cases hres : results = []
          · simp [step, handleApplyFrameToBatch, hp, hb, hr, hres]
          · simp [step, handleApplyFrameToBatch, hp, hb, hr, hres]

/-- Witness for `hotspots_cleared_on_retouch_and_navigation`: the retouch
clause at a session whose cursor sits mid-history (so the post-edit history
is shorter than the old length plus one), plus cursor-moving undo and
redo. -/
theorem hotspots_cleared_on_retouch_and_navigation_witness :
    ((step (.generate (.ok okUrl) 7) sMidRetouch).editHotspots = [] ∧
      (step (.generate (.ok okUrl) 7) sMidRetouch).displayHotspots = []) ∧
    ((handleUndo sRetouch).editHotspots = [] ∧
      (handleUndo sRetouch).displayHotspots = []) ∧
    ((handleRedo { sRetouch with historyIndex := 0 }).editHotspots = [] ∧
      (handleRedo { sRetouch with historyIndex := 0 }).displayHotspots = []) :=
  ⟨(hotspots_cleared_on_retouch_and_navigation sMidRetouch (.ok okUrl) 7
      goldFrame okUrl (fun _ => .error "") (fun _ _ => .error "")).1
      imgA { name := "edited-7.png", mime := "image/png", bytes := [65, 66, 67] }
      (by decide) (by decide) (by decide) rfl,
   (hotspots_cleared_on_retouch_and_navigation sRetouch (.ok okUrl) 7
      goldFrame okUrl (fun _ => .error "") (fun _ _ => .error "")).2.1 (by decide),
   (hotspots_cleared_on_retouch_and_navigation { sRetouch with historyIndex := 0 }
      (.ok okUrl) 7 goldFrame okUrl (fun _ => .error "")
      (fun _ _ => .error "")).2.2.1 (by decide)⟩

set_option maxRecDepth 10000 in
/-- C8: exporting an empty selection fails with the input error before any
archive is built; a non-empty selection yields one entry per file, the entry
at position `i` named by the zero-padded decimal index (exactly three digits
for every index below 1000), an underscore, and the original filename with
every character outside `[A-Za-z0-9_.-]` replaced by an underscore. -/
theorem zip_entry_naming (files : List ImageFile) (i : Nat)
    (hne : files ≠ []) (_hi : i < files.length) :
    handleDownloadZip [] = .error "No images selected to download." ∧
    handleDownloadZip files = .ok (buildZipEntries files) ∧
    (buildZipEntries files).length = files.length ∧
    (buildZipEntries files).get? i =
      (files.get? i).map (fun f =>
        (padStart3 (Nat.repr i) ++ "_" ++ String.mk (f.name.data.map sanitizeChar), f)) ∧
    (∀ j : Fin 1000, (padStart3 (Nat.repr j.val)).length = 3) := by
  refine ⟨rfl, ?_, ?_, ?_, by decide⟩
  · have hlen : ¬ files.length = 0 := by simpa using hne
    simp [handleDownloadZip, hlen]
  · simp [buildZipEntries]
  · cases hg : files[i]? <;>
      simp [buildZipEntries, List.get?_eq_getElem?, List.getElem?_map,
            List.getElem?_enum, hg, zipEntryName, sanitizeName]

/-- Witness for `zip_entry_naming` at a two-file selection, index 1. -/
theorem zip_entry_naming_witness :
    (buildZipEntries [imgA, imgB]).get? 1 =
      ([imgA, imgB].get? 1).map (fun f =>
        (padStart3 (Nat.repr 1) ++ "_" ++ String.mk (f.name.data.map sanitizeChar), f)) :=
  (zip_entry_naming [imgA, imgB] 1 (by decide) (by decide)).2.2.2.1

/-- Structure of a JS comma split: the first segment is the prefix before the
first comma, and when a comma exists the remaining segments are the split of
the characters after it. -/
theorem splitComma_cons_structure (l : List Char) :
    splitComma l =
      l.takeWhile notComma ::
        (if ',' ∈ l then splitComma ((l.dropWhile notComma).tail)
         else []) := by
  induction l with
  | nil => simp [splitComma]
  | cons c cs ih =>
    by_cases hc : c = ','
    · subst hc
      simp [splitComma, List.takeWhile_cons, List.dropWhile_cons, notComma]
    · have h1 : splitComma (c :: cs) =
          (match splitComma cs with
           | [] => [[c]]
           | seg :: segs => (c :: seg) :: segs) := by
        simp [splitComma, hc]
      rw [h1, ih]
      simp [List.takeWhile_cons, List.dropWhile_cons, notComma, hc,
            List.mem_cons, Ne.symm hc]

/-- Counterexample for C6: `"data:image/png;base64,!"` has the comma
separator and a parseable MIME descriptor, yet decoding fails (the payload
is not valid base64), so decoding does not fail exactly on the two claimed
conditions. -/
theorem decode_exactness_counterexample :
    ',' ∈ badPayloadURL.data ∧
    mimeCapture (headerSegment badPayloadURL) = some "image/png".data ∧
    dataURLtoFile badPayloadURL "f.png" = .error "InvalidCharacterError" :=
  ⟨by decide, by decide, rfl⟩

/-- C6 as amended: decoding succeeds exactly when the string has a comma, the
segment before the first comma contains a parseable non-empty MIME pattern,
and the payload segment (between the first comma and any second one) is
valid forgiving-base64; a successful decode carries the given filename, the
captured MIME type, and the base64 decode of that payload segment. -/
theorem decode_failure_characterization (s fn : String) :
    ((dataURLtoFile s fn).isOk = true ↔
      (',' ∈ s.data ∧
        (∃ cap, mimeCapture (headerSegment s) = some cap ∧ cap ≠ []) ∧
        (atobChars (payloadSegment s)).isSome = true)) ∧
    (∀ img, dataURLtoFile s fn = .ok img →
      img.name = fn ∧
      mimeCapture (headerSegment s) = some img.mime.data ∧
      atobChars (payloadSegment s) = some img.bytes) := by
  have hhead : headerSegment s = s.data.takeWhile notComma := rfl
  have hpay : payloadSegment s =
      ((s.data.dropWhile notComma).tail).takeWhile notComma := rfl
  by_cases hmem : ',' ∈ s.data
  · have hfull := splitComma_cons_structure s.data
    rw [if_pos hmem,
        splitComma_cons_structure ((s.data.dropWhile notComma).tail)] at hfull
    constructor
    · rw [hhead, hpay]
      cases hcap : mimeCapture (s.data.takeWhile notComma) with
      | none => simp [dataURLtoFile, hfull, hcap, Except.isOk, Except.toBool]
      | some cap =>
        by_cases hcf : cap = []
        · subst hcf
          simp [dataURLtoFile, hfull, hcap, Except.isOk, Except.toBool]
        · cases hat : atobChars
              (((s.data.dropWhile notComma).tail).takeWhile notComma) with
          | none =>
            simp [dataURLtoFile, hfull, hcap, hcf, hat, Except.isOk, Except.toBool, hmem]
          | some bytes =>
            simp [dataURLtoFile, hfull, hcap, hcf, hat, Except.isOk, Except.toBool, hmem]
    · intro img himg
      rw [hhead, hpay]
      cases hcap : mimeCapture (s.data.takeWhile notComma) with
      | none => simp [dataURLtoFile, hfull, hcap] at himg
      | some cap =>
        by_cases hcf : cap = []
        · simp [dataURLtoFile, hfull, hcap, hcf] at himg
        · cases hat : atobChars
              (((s.data.dropWhile notComma).tail).takeWhile notComma) with
          | none => simp [dataURLtoFile, hfull, hcap, hcf, hat] at himg
          | some bytes =>
            have h3 : dataURLtoFile s fn =
                .ok { name := fn, mime := String.mk cap, bytes := bytes } := by
              simp [dataURLtoFile, hfull, hcap, hcf, hat]
            rw [h3] at himg
            injection himg with h4
            subst h4
            exact ⟨rfl, rfl, rfl⟩
  · have hs1 := splitComma_cons_structure s.data
    rw [if_neg hmem] at hs1
    constructor
    · simp [dataURLtoFile, hs1, Except.isOk, Except.toBool, hmem]
    · intro img himg
      simp [dataURLtoFile, hs1] at himg

/-- Witness for `decode_failure_characterization` at a well-formed data URL:
the MIME capture and the decoded bytes agree with the decoder output. -/
theorem decode_failure_characterization_witness :
    mimeCapture (headerSegment okUrl) = some "image/png".data ∧
    atobChars (payloadSegment okUrl) = some [65, 66, 67] := by
  have h := (decode_failure_characterization okUrl "f.png").2
    { name := "f.png", mime := "image/png", bytes := [65, 66, 67] } rfl
  exact ⟨h.2.1, h.2.2⟩

/-- Every event preserves equality of the two hotspot-list lengths: each
operation that appends, pops or clears one list does the same to the other. -/
theorem step_preserves_hotspot_lengths (s : AppState) (ev : Ev)
    (ih : s.editHotspots.length = s.displayHotspots.length) :
    (step ev s).editHotspots.length = (step ev s).displayHotspots.length := by
  cases ev with
  | startEditing f => simp [step, handleStartEditing]
  | setTool t => simpa [step] using ih
  | setPrompt p => simpa [step] using ih
  | setSecondaryPrompt p => simpa [step] using ih
  | setCrop b => simpa [step] using ih
  | setCompletedCrop b => simpa [step] using ih
  | imageClick d n =>
    by_cases h : s.activeTool ≠ Tool.retouch
    · simpa [step, handleImageClick, h] using ih
    · simp [step, handleImageClick, h, ih]
  | undoHotspot => simp [step, handleUndoHotspot, ih]
  | generate outcome now =>
    cases hc : currentImage s with
    | none => simpa [step, handleGenerate, hc] using ih
    | some i =>
      by_cases h1 : jsTrim s.prompt = ""
      · simpa [step, handleGenerate, hc, h1] using ih
      · by_cases h2 : s.editHotspots = []
        · simpa [step, handleGenerate, hc, h1, h2] using ih
        · cases hd : decodeOutcome outcome ("edited-" ++ toString now ++ ".png") with
          | ok img => simp [step, handleGenerate, hc, h1, h2, hd]
          | error e => simpa [step, handleGenerate, hc, h1, h2, hd] using ih
  | applyCreativeStyle outcome now =>
    cases hc : currentImage s with
    | none => simpa [step, handleApplyCreativeStyle, hc] using ih
    | some i =>
      cases hd : decodeOutcome outcome ("styled-" ++ toString now ++ ".png") with
      | ok img =>
        simpa [step, handleApplyCreativeStyle, hc, hd, addImageToHistory] using ih
      | error e => simpa [step, handleApplyCreativeStyle, hc, hd] using ih
  | applyAdjustment outcome now =>
    cases hc : currentImage s with
    | none => simpa [step, handleApplyAdjustment, hc] using ih
    | some i =>
      cases hd : decodeOutcome outcome ("adjusted-" ++ toString now ++ ".png") with
      | ok img =>
        simpa [step, handleApplyAdjustment, hc, hd, addImageToHistory] using ih
      | error e => simpa [step, handleApplyAdjustment, hc, hd] using ih
  | replaceObject outcome now =>
    cases hc : currentImage s with
    | none => simpa [step, handleReplaceObject, hc] using ih
    | some i =>
      by_cases h1 : jsTrim s.prompt = "" ∨ jsTrim s.secondaryPrompt = ""
      · simpa [step, handleReplaceObject, hc, h1] using ih
      · cases hd : decodeOutcome outcome ("replaced-" ++ toString now ++ ".png") with
        | ok img =>
          simpa [step, handleReplaceObject, hc, h1, hd, addImageToHistory] using ih
        | error e => simpa [step, handleReplaceObject, hc, h1, hd] using ih
  | applyFrame form outcome now =>
    cases hc : currentImage s with
    | none => simpa [step, handleApplyFrame, hc] using ih
    | some i =>
      by_cases h1 : jsTrim form.style = ""
      · simpa [step, handleApplyFrame, hc, h1] using ih
      · cases hd : decodeOutcome outcome ("framed-" ++ toString now ++ ".png") with
        | ok img =>
          simpa [step, handleApplyFrame, hc, h1, hd, addImageToHistory] using ih
        | error e => simpa [step, handleApplyFrame, hc, h1, hd] using ih
  | applyCrop url now =>
    by_cases h1 : s.completedCrop
    · cases hd : dataURLtoFile url ("cropped-" ++ toString now ++ ".png") with
      | ok img => simpa [step, handleApplyCrop, h1, hd, addImageToHistory] using ih
      | error e => simpa [step, handleApplyCrop, h1, hd] using ih
    · simpa [step, handleApplyCrop, h1] using ih
  | generateComposite gen now =>
    cases ha : compositeCallArgs s with
    | none => simpa [step, handleGenerateComposite, ha] using ih
    | some args =>
      cases hd : decodeOutcome (gen args) ("composited-" ++ toString now ++ ".png") with
      | ok img => simpa [step, handleGenerateComposite, ha, hd] using ih
      | error e => simpa [step, handleGenerateComposite, ha, hd] using ih
  | applyFrameToBatch gen =>
    cases hp : s.pinnedFrameStyle with
    | none => simpa [step, handleApplyFrameToBatch, hp] using ih
    | some pinned =>
      by_cases hb : s.batchFiles = []
      · simpa [step, handleApplyFrameToBatch, hp, hb] using ih
      · rcases hr : batchRun (gen pinned) s.batchFiles with ⟨results, attempted, err⟩
        cases err with
        | none => simpa [step, handleApplyFrameToBatch, hp, hb, hr] using ih
        | some e =>
          by_cases hres : results = []
          · simpa [step, handleApplyFrameToBatch, hp, hb, hr, hres] using ih
          · simpa [step, handleApplyFrameToBatch, hp, hb, hr, hres] using ih
  | undo =>
    by_cases h : canUndo s = true
    · simp [step, handleUndo, h]
    · simpa [step, handleUndo, h] using ih
  | redo =>
    by_cases h : canRedo s = true
    · simp [step, handleRedo, h]
    · simpa [step, handleRedo, h] using ih
  | reset =>
    by_cases h : s.history.length > 0
    · simp [step, handleReset, h]
    · simpa [step, handleReset, h] using ih
  | uploadNew => simp [step, handleUploadNew]
  | selectHistory i =>
    by_cases h : i < s.history.length
    · simp [step, selectHistoryIndex, h]
    · simpa [step, selectHistoryIndex, h] using ih
  | compositeFilesSelect files =>
    by_cases h : files.length > 1
    · simpa [step, handleCompositeFilesSelect, h] using ih
    · simpa [step, handleCompositeFilesSelect, h] using ih
  | batchFilesSelect files =>
    by_cases h : files.length > 0
    · simpa [step, handleBatchFilesSelect, h] using ih
    · simpa [step, handleBatchFilesSelect, h] using ih
  | setStyleSourceIndex i =>
    by_cases h : i < s.compositeFiles.length
    · simpa [step, h] using ih
    · simpa [step, h] using ih
  | compositeStartOver => simpa [step] using ih
  | pinFrame form => simpa [step] using ih
  | toggleSelection i =>
    by_cases h : i ∈ s.selectedIndices
    · simpa [step, handleToggleSelection, h] using ih
    · simpa [step, handleToggleSelection, h] using ih
  | downloadZip files =>
    cases hd : handleDownloadZip files with
    | ok entries => simpa [step, handleDownloadZipState, hd] using ih
    | error e => simpa [step, handleDownloadZipState, hd] using ih

/-- C10: in every reachable session state the natural-resolution and
on-screen hotspot lists have the same length. -/
theorem hotspot_lists_equal_length (s : AppState) (h : Reachable s) :
    s.editHotspots.length = s.displayHotspots.length := by
  induction h with
  | init => rfl
  | next ev hr ih => exact step_preserves_hotspot_lengths _ ev ih

/-- Witness for `hotspot_lists_equal_length` at the initial state. -/
theorem hotspot_lists_equal_length_witness :
    initState.editHotspots.length = initState.displayHotspots.length :=
  hotspot_lists_equal_length initState Reachable.init

end DreamCraft
